import Mathlib

/-!
Verification development for the Itheum util-snippets-sol client pipeline.

The repository is a Solana CLI whose core is an instruction-encoding and
transaction-assembly layer: each operation (add liquidity, create token,
mint, transfer, freeze/unfreeze, update metadata/authorities) builds one
instruction, wraps it in a message with the CLI signer as fee payer,
fetches a recent blockhash from the node, signs, and submits the signed
transaction with skip_preflight set to true.

Pure parts (address derivation, byte encoding, instruction building) are
embedded as Lean functions.  The two network interactions (blockhash
fetch, transaction submission) are embedded through an oracle record
whose fields give the outcome of each call, and every pipeline returns,
next to its result, the explicit trace of network events it performed,
so that ordering, no-retry and submit-only-after-signing properties can
be stated about the trace.
-/

/-- Little-endian 8-byte encoding of an unsigned 64-bit amount, as borsh
and the Anchor argument encoding produce it. -/
def u64_le (a : Nat) : List Nat :=
  [a % 256, a / 256 % 256, a / 256 ^ 2 % 256, a / 256 ^ 3 % 256,
   a / 256 ^ 4 % 256, a / 256 ^ 5 % 256, a / 256 ^ 6 % 256, a / 256 ^ 7 % 256]

/-- Little-endian 4-byte length prefix used by the borsh string encoding. -/
def u32_le (a : Nat) : List Nat :=
  [a % 256, a / 256 % 256, a / 256 ^ 2 % 256, a / 256 ^ 3 % 256]

/-- Value of a little-endian byte string (inverse reading of u64_le). -/
def le_value (bs : List Nat) : Nat :=
  bs.foldr (fun b acc => b + 256 * acc) 0

/-- Bytes of a string (unicode code points; ASCII for all inputs used here). -/
def str_bytes (s : String) : List Nat :=
  s.data.map (fun c => c.toNat)

/-- Borsh encoding of a string: 4-byte little-endian length, then the bytes. -/
def borsh_str (s : String) : List Nat :=
  u32_le (str_bytes s).length ++ str_bytes s

/-- An account or program address.  Addresses are 32-byte identifiers on
the ledger; the embedding treats them as abstract numeric identifiers. -/
abbrev Pubkey := Nat

/-- Well-known program addresses, as distinct abstract identifiers. -/
def system_program_ID : Pubkey := 101

def spl_token_ID : Pubkey := 102

def spl_associated_token_account_ID : Pubkey := 103

def mpl_token_metadata_ID : Pubkey := 104

def sysvar_instructions_ID : Pubkey := 105

/-- Modelled from the spec: the protocol hash behind program-derived
addresses (SHA-256 in the real SDK, which is outside this repository).
A concrete deterministic mixing function stands in for it; every claim
below depends only on it being a fixed pure function of its input. -/
def spec_hash (bs : List Nat) : Nat :=
  bs.foldl (fun a b => (a * 33 + b + 1) % 2 ^ 256) 5381

/-- Modelled from the spec: the on-curve test of the signing curve used
by the bump search (a property of roughly half of all candidates). -/
def is_on_curve (a : Nat) : Bool :=
  a % 2 == 0

/-- Modelled from the spec: one candidate program-derived address, the
hash of the seeds, the bump byte, the program address and the fixed
domain separator. -/
def create_program_address (seeds : List (List Nat)) (pid : Pubkey) (bump : Nat) : Pubkey :=
  spec_hash (seeds.flatten ++ [bump] ++ [pid] ++ str_bytes "ProgramDerivedAddress")

/-- Modelled from the spec: the bump search of the SDK function
Pubkey::find_program_address, iterating the bump from 255 downward and
returning the first candidate that is not on the curve; none when all
256 candidates are on-curve (the NoValidBumpFound case). -/
def find_program_address (seeds : List (List Nat)) (pid : Pubkey) : Option (Pubkey × Nat) :=
  match (List.range 256).reverse.find? (fun b => !(is_on_curve (create_program_address seeds pid b))) with
  | some b => some (create_program_address seeds pid b, b)
  | none => none

/-- The panicking accessor used by the source: the SDK unwraps the bump
search, the none case being unreachable in practice. -/
def find_program_address_unwrap (seeds : List (List Nat)) (pid : Pubkey) : Pubkey × Nat :=
  (find_program_address seeds pid).getD (0, 0)

/-- Modelled from the spec: the associated token address of an owner and
a mint, a program-derived address of the associated-token-account
program with seed list owner, token program, mint. -/
def get_associated_token_address (owner : Pubkey) (mint : Pubkey) : Pubkey :=
  (find_program_address_unwrap [[owner], [spl_token_ID], [mint]] spl_associated_token_account_ID).1

/-- Modelled from the spec: the metadata PDA of a mint
(Metadata::find_pda of the token-metadata crate). -/
def metadata_find_pda (mint : Pubkey) : Pubkey × Nat :=
  find_program_address_unwrap [str_bytes "metadata", [mpl_token_metadata_ID], [mint]] mpl_token_metadata_ID

/-- Modelled from the spec: get_function_hash of utils.rs, which is not
under src/.  Per the spec it is a deterministic hash of the string
"namespace:method" truncated to its first 8 bytes; a concrete
deterministic 8-byte digest stands in for the SHA-256 of the real code. -/
def get_function_hash (namespace_str : String) (name_str : String) : List Nat :=
  let bs := str_bytes (namespace_str ++ ":" ++ name_str)
  (List.range 8).map (fun i => spec_hash (bs ++ [i]) % 256)

/-- One account reference of an instruction: address, signer flag,
writable flag (solana_sdk AccountMeta). -/
structure AccountMeta where
  pubkey : Pubkey
  is_signer : Bool
  is_writable : Bool
deriving Repr, DecidableEq

/-- AccountMeta::new — writable reference. -/
def AccountMeta.new (pk : Pubkey) (signer : Bool) : AccountMeta :=
  { pubkey := pk, is_signer := signer, is_writable := true }

/-- AccountMeta::new_readonly — read-only reference. -/
def AccountMeta.new_readonly (pk : Pubkey) (signer : Bool) : AccountMeta :=
  { pubkey := pk, is_signer := signer, is_writable := false }

/-- An instruction: target program, ordered account list, opaque data. -/
structure Instruction where
  program_id : Pubkey
  accounts : List AccountMeta
  data : List Nat
deriving Repr, DecidableEq

/-- First-occurrence deduplication of a key list. -/
def dedup_keys : List Pubkey → List Pubkey
  | [] => []
  | x :: xs => x :: dedup_keys (xs.filter (fun y => !(y == x)))
termination_by l => l.length
decreasing_by
  simp only [List.length_cons]
  exact Nat.lt_succ_of_le (List.length_filter_le _ _)

/-- A transaction message: fee payer, the instructions, and the ordered
set of accounts that must sign (fee payer first, then every account
flagged is_signer across the instructions, deduplicated). -/
structure Message where
  fee_payer : Pubkey
  instructions : List Instruction
  required_signers : List Pubkey
deriving Repr, DecidableEq

/-- Message::new of the SDK, restricted to the fields the claims need:
the fee payer leads the signer set, followed by every signer-flagged
account of the instructions in order of first occurrence. -/
def Message.new (ixs : List Instruction) (payer : Pubkey) : Message :=
  { fee_payer := payer,
    instructions := ixs,
    required_signers :=
      dedup_keys (payer :: (ixs.map (fun ix => ix.accounts.filterMap
        (fun a => if a.is_signer then some a.pubkey else none))).flatten) }

/-- Signing errors of Transaction::try_sign (solana_sdk SignerError). -/
inductive SignError where
  | keypair_pubkey_mismatch : SignError
  | signer_failure : SignError
  | not_enough_signers : SignError
deriving Repr, DecidableEq

/-- Human-readable rendering of a signing error. -/
def SignError.msg : SignError → String
  | .keypair_pubkey_mismatch => "keypair-pubkey mismatch"
  | .signer_failure => "signer failure"
  | .not_enough_signers => "not enough signers"

/-- A signer capability: the public key it signs for, and whether the
capability produces a signature when asked (a remote hardware signer
may refuse; a keypair always signs). -/
structure SignerCap where
  pubkey : Pubkey
  signOk : Bool
deriving Repr, DecidableEq

/-- Modelled from the spec and the solana_sdk boundary:
Transaction::try_sign.  First every supplied capability must match a
required signer of the message (else KeypairPubkeyMismatch), then every
supplied capability must actually sign (else the signer error
propagates), and finally the transaction must be fully signed: a
required signer with no supplied capability gives NotEnoughSigners. -/
def trySign (msg : Message) (caps : List SignerCap) : Except SignError Unit :=
  if caps.any (fun c => !(msg.required_signers.contains c.pubkey)) then
    .error .keypair_pubkey_mismatch
  else if caps.any (fun c => !c.signOk) then
    .error .signer_failure
  else if msg.required_signers.any (fun p => !(caps.any (fun c => c.pubkey == p))) then
    .error .not_enough_signers
  else
    .ok ()

/-- Whether an Except value is a success. -/
def exc_ok {ε α : Type} : Except ε α → Bool
  | .ok _ => true
  | .error _ => false

/-- A network event performed by a pipeline: a blockhash fetch, or the
submission of a message with its skip-preflight flag. -/
inductive RpcEvent where
  | get_latest_blockhash : RpcEvent
  | send_transaction : Message → Bool → RpcEvent
deriving Repr, DecidableEq

/-- The remote node as an oracle: the outcome of a blockhash fetch and
the outcome of submitting a given message with a given preflight flag. -/
structure RpcClient where
  latest_blockhash : Except String Nat
  send_transaction : Message → Bool → Except String Nat

/-- The common tail of every process_* function of the repository: the
message is already built; fetch the latest blockhash (propagating a
fetch failure), sign with the supplied capabilities (propagating a
signing failure), then submit once with skip_preflight set to true.
Returns the result together with the trace of network events. -/
def submit_pipeline (rpc : RpcClient) (caps : List SignerCap) (msg : Message) :
    Except String Nat × List RpcEvent :=
  match rpc.latest_blockhash with
  | .error e =>
      (.error ("error: unable to get latest blockhash: " ++ e), [RpcEvent.get_latest_blockhash])
  | .ok _bh =>
      match trySign msg caps with
      | .error e =>
          (.error ("error: failed to sign transaction: " ++ e.msg), [RpcEvent.get_latest_blockhash])
      | .ok _ =>
          match rpc.send_transaction msg true with
          | .error e =>
              (.error ("error: send transaction: " ++ e),
               [RpcEvent.get_latest_blockhash, RpcEvent.send_transaction msg true])
          | .ok sig =>
              (.ok sig,
               [RpcEvent.get_latest_blockhash, RpcEvent.send_transaction msg true])

/-- The instruction built by process_add_liquidity (add_liquidity.rs):
data is the method discriminator for global:add_liquidity followed by
the borsh encoding of the amount, and the account list is bridge PDA,
vault associated account, depositor, mint, depositor associated
account, system program, SPL token program, associated-token program. -/
def add_liquidity_ix (program_id : Pubkey) (signer_pk : Pubkey) (amount : Nat)
    (mint_of_token_sent : Pubkey) : Instruction :=
  let bridge_pda := (find_program_address_unwrap [str_bytes "bridge_state"] program_id).1
  let vault_ata := get_associated_token_address bridge_pda mint_of_token_sent
  let signer_ata := get_associated_token_address signer_pk mint_of_token_sent
  { program_id := program_id,
    accounts :=
      [AccountMeta.new bridge_pda false,
       AccountMeta.new vault_ata false,
       AccountMeta.new_readonly signer_pk true,
       AccountMeta.new_readonly mint_of_token_sent false,
       AccountMeta.new signer_ata false,
       AccountMeta.new_readonly system_program_ID false,
       AccountMeta.new_readonly spl_token_ID false,
       AccountMeta.new_readonly spl_associated_token_account_ID false],
    data := get_function_hash "global" "add_liquidity" ++ u64_le amount }

/-- The message process_add_liquidity assembles before fetching a
blockhash: the single instruction, fee payer the CLI signer. -/
def add_liquidity_msg (signer_pk : Pubkey) (program_id : Pubkey) (amount : Nat)
    (mint_of_token_sent : Pubkey) : Message :=
  Message.new [add_liquidity_ix program_id signer_pk amount mint_of_token_sent] signer_pk

/-- process_add_liquidity of add_liquidity.rs: build the instruction and
message, then fetch, sign with the single CLI signer, submit. -/
def process_add_liquidity (rpc : RpcClient) (signer : SignerCap) (program_id : Pubkey)
    (amount : Nat) (mint_of_token_sent : Pubkey) : Except String Nat × List RpcEvent :=
  submit_pipeline rpc [signer]
    (add_liquidity_msg signer.pubkey program_id amount mint_of_token_sent)

/-- Modelled from the spec: the CreateV1 builder of the external
mpl-token-metadata crate, as configured by create_token.rs.  Nine
accounts in the generated order (metadata; the absent master edition
replaced by the program id placeholder; mint as signer; authority;
payer; update authority; system program; instructions sysvar; SPL token
program), and a data payload that opens with the single-byte CreateV1
instruction discriminator 42 followed by the borsh encoding of the
argument record (args enum tag, then name, symbol, uri, fee, flags). -/
def create_v1_ix (mint_pk : Pubkey) (signer_pk : Pubkey) (decimals : Nat)
    (name : String) (symbol : String) (uri : String) : Instruction :=
  let metadata := (metadata_find_pda mint_pk).1
  { program_id := mpl_token_metadata_ID,
    accounts :=
      [AccountMeta.new metadata false,
       AccountMeta.new_readonly mpl_token_metadata_ID false,
       AccountMeta.new mint_pk true,
       AccountMeta.new_readonly signer_pk true,
       AccountMeta.new signer_pk true,
       AccountMeta.new_readonly signer_pk true,
       AccountMeta.new_readonly system_program_ID false,
       AccountMeta.new_readonly sysvar_instructions_ID false,
       AccountMeta.new_readonly spl_token_ID false],
    data :=
      [42, 0] ++ borsh_str name ++ borsh_str symbol ++ borsh_str uri ++
      [0, 0] ++ [0] ++ [0] ++ [1] ++ [2] ++ [0] ++ [0] ++ [0] ++ [0] ++
      [1, decimals % 256] ++ [0] }

/-- The message process_create_token assembles. -/
def create_token_msg (signer_pk : Pubkey) (mint_pk : Pubkey) (decimals : Nat)
    (name : String) (symbol : String) (uri : String) : Message :=
  Message.new [create_v1_ix mint_pk signer_pk decimals name symbol uri] signer_pk

/-- process_create_token of create_token.rs: build the CreateV1
instruction and message, then fetch, sign with the CLI signer and the
mint keypair, submit. -/
def process_create_token (rpc : RpcClient) (signer : SignerCap) (mint : SignerCap)
    (decimals : Nat) (name : String) (symbol : String) (uri : String) :
    Except String Nat × List RpcEvent :=
  submit_pipeline rpc [signer, mint]
    (create_token_msg signer.pubkey mint.pubkey decimals name symbol uri)

/-- Modelled from the spec: the MintV1 builder of the external
mpl-token-metadata crate, as configured by mint_to.rs.  The account
order follows the generated builder; absent optional accounts are the
program id placeholder.  Data opens with the MintV1 discriminator 43. -/
def mint_v1_ix (mint_pk : Pubkey) (receiver_pk : Pubkey) (signer_pk : Pubkey)
    (amount : Nat) : Instruction :=
  let receiver_ata := get_associated_token_address receiver_pk mint_pk
  let metadata := (metadata_find_pda mint_pk).1
  { program_id := mpl_token_metadata_ID,
    accounts :=
      [AccountMeta.new receiver_ata false,
       AccountMeta.new_readonly receiver_pk false,
       AccountMeta.new_readonly metadata false,
       AccountMeta.new_readonly mpl_token_metadata_ID false,
       AccountMeta.new_readonly mpl_token_metadata_ID false,
       AccountMeta.new mint_pk false,
       AccountMeta.new_readonly signer_pk true,
       AccountMeta.new_readonly mpl_token_metadata_ID false,
       AccountMeta.new signer_pk true,
       AccountMeta.new_readonly system_program_ID false,
       AccountMeta.new_readonly sysvar_instructions_ID false,
       AccountMeta.new_readonly spl_token_ID false,
       AccountMeta.new_readonly spl_associated_token_account_ID false],
    data := [43, 0] ++ u64_le amount ++ [0] }

/-- The message process_mint_to assembles. -/
def mint_to_msg (signer_pk : Pubkey) (mint_pk : Pubkey) (receiver_pk : Pubkey)
    (amount : Nat) : Message :=
  Message.new [mint_v1_ix mint_pk receiver_pk signer_pk amount] signer_pk

/-- process_mint_to of mint_to.rs. -/
def process_mint_to (rpc : RpcClient) (signer : SignerCap) (mint_pk : Pubkey)
    (receiver_pk : Pubkey) (amount : Nat) : Except String Nat × List RpcEvent :=
  submit_pipeline rpc [signer] (mint_to_msg signer.pubkey mint_pk receiver_pk amount)

/-- Modelled from the spec: the TransferV1 builder of the external
mpl-token-metadata crate, as configured by transfer_to.rs.  Data opens
with the TransferV1 discriminator 49. -/
def transfer_v1_ix (mint_pk : Pubkey) (receiver_pk : Pubkey) (signer_pk : Pubkey)
    (amount : Nat) : Instruction :=
  let receiver_ata := get_associated_token_address receiver_pk mint_pk
  let signer_ata := get_associated_token_address signer_pk mint_pk
  let metadata := (metadata_find_pda mint_pk).1
  { program_id := mpl_token_metadata_ID,
    accounts :=
      [AccountMeta.new signer_ata false,
       AccountMeta.new_readonly signer_pk false,
       AccountMeta.new receiver_ata false,
       AccountMeta.new_readonly receiver_pk false,
       AccountMeta.new_readonly mint_pk false,
       AccountMeta.new metadata false,
       AccountMeta.new_readonly mpl_token_metadata_ID false,
       AccountMeta.new_readonly mpl_token_metadata_ID false,
       AccountMeta.new_readonly mpl_token_metadata_ID false,
       AccountMeta.new_readonly signer_pk true,
       AccountMeta.new signer_pk true,
       AccountMeta.new_readonly system_program_ID false,
       AccountMeta.new_readonly sysvar_instructions_ID false,
       AccountMeta.new_readonly spl_token_ID false,
       AccountMeta.new_readonly spl_associated_token_account_ID false],
    data := [49, 0] ++ u64_le amount ++ [0] }

/-- The message process_transfer_to assembles. -/
def transfer_to_msg (signer_pk : Pubkey) (mint_pk : Pubkey) (receiver_pk : Pubkey)
    (amount : Nat) : Message :=
  Message.new [transfer_v1_ix mint_pk receiver_pk signer_pk amount] signer_pk

/-- process_transfer_to of transfer_to.rs. -/
def process_transfer_to (rpc : RpcClient) (signer : SignerCap) (mint_pk : Pubkey)
    (receiver_pk : Pubkey) (amount : Nat) : Except String Nat × List RpcEvent :=
  submit_pipeline rpc [signer] (transfer_to_msg signer.pubkey mint_pk receiver_pk amount)

/-- Modelled from the spec and the spl-token boundary:
spl_token::instruction::thaw_account.  It first checks that the token
program id is the SPL token program id (IncorrectProgramId otherwise),
then builds the thaw instruction: the account writable, the mint
read-only, and — with a non-empty signer list — the owner read-only
non-signer followed by each listed signer as a read-only signer.  The
data is the single ThawAccount tag byte 11.  This is its only failure
case. -/
def thaw_account (token_program_id : Pubkey) (account_pk : Pubkey) (mint_pk : Pubkey)
    (owner_pk : Pubkey) (signer_pks : List Pubkey) : Except String Instruction :=
  if token_program_id ≠ spl_token_ID then
    .error "IncorrectProgramId"
  else
    .ok { program_id := token_program_id,
          accounts :=
            [AccountMeta.new account_pk false,
             AccountMeta.new_readonly mint_pk false] ++
            (if signer_pks.isEmpty then
               [AccountMeta.new_readonly owner_pk true]
             else
               AccountMeta.new_readonly owner_pk false ::
                 signer_pks.map (fun s => AccountMeta.new_readonly s true)),
          data := [11] }

/-- The unwrap of the thaw_account result performed by unfreeze.rs. -/
def unfreeze_ix (mint_pk : Pubkey) (receiver_pk : Pubkey) (signer_pk : Pubkey) : Instruction :=
  (thaw_account spl_token_ID (get_associated_token_address receiver_pk mint_pk) mint_pk
    signer_pk [signer_pk]).toOption.getD
    { program_id := 0, accounts := [], data := [] }

/-- The message process_unfreeze_account assembles. -/
def unfreeze_msg (signer_pk : Pubkey) (mint_pk : Pubkey) (receiver_pk : Pubkey) : Message :=
  Message.new [unfreeze_ix mint_pk receiver_pk signer_pk] signer_pk

/-- process_unfreeze_account of unfreeze.rs. -/
def process_unfreeze_account (rpc : RpcClient) (signer : SignerCap) (mint_pk : Pubkey)
    (receiver_pk : Pubkey) : Except String Nat × List RpcEvent :=
  submit_pipeline rpc [signer] (unfreeze_msg signer.pubkey mint_pk receiver_pk)

/-- process_update_authorities of authorities.rs: the instruction is
built by the caller and passed in; the pipeline wraps it in a
single-instruction message with the CLI signer as fee payer and runs
the common submission tail. -/
def process_update_authorities (rpc : RpcClient) (signer : SignerCap) (ix : Instruction) :
    Except String Nat × List RpcEvent :=
  submit_pipeline rpc [signer] (Message.new [ix] signer.pubkey)

/-- Modelled from the spec: process_freeze_account of freeze.rs, which
is declared in main.rs but absent from src/.  Per the spec table the
freeze flow mirrors the unfreeze flow (token account address, freeze
authority signer, FreezeAccount tag byte 10), with the same
single-instruction message and submission tail. -/
def process_freeze_account (rpc : RpcClient) (signer : SignerCap) (mint_pk : Pubkey)
    (account_pk : Pubkey) : Except String Nat × List RpcEvent :=
  let ix : Instruction :=
    { program_id := spl_token_ID,
      accounts :=
        [AccountMeta.new (get_associated_token_address account_pk mint_pk) false,
         AccountMeta.new_readonly mint_pk false,
         AccountMeta.new_readonly signer.pubkey false,
         AccountMeta.new_readonly signer.pubkey true],
      data := [10] }
  submit_pipeline rpc [signer] (Message.new [ix] signer.pubkey)

/-- Modelled from the spec: process_update_metadata of
update_metadata.rs, which is declared in main.rs but absent from src/.
Per the spec the update instruction is produced by a caller-configured
builder; the pipeline wraps the built instruction in a
single-instruction message with the CLI signer as fee payer and runs
the common submission tail. -/
def process_update_metadata (rpc : RpcClient) (signer : SignerCap) (ix : Instruction) :
    Except String Nat × List RpcEvent :=
  submit_pipeline rpc [signer] (Message.new [ix] signer.pubkey)

/-- Assembly errors of the transaction assembler. -/
inductive AssembleError where
  | empty_instruction_set : AssembleError
deriving Repr, DecidableEq

/-- Modelled from the spec: the transaction assembler of section 4.4
(realised by the SDK message constructor, which is outside this
repository): combines the instructions into a message with the given
fee payer, and fails with EmptyInstructionSet on zero instructions. -/
def assemble (ixs : List Instruction) (fee_payer : Pubkey) : Except AssembleError Message :=
  if ixs.isEmpty then .error .empty_instruction_set
  else .ok (Message.new ixs fee_payer)

/-- True when a trace contains no submission event at all. -/
def trace_no_send (tr : List RpcEvent) : Bool :=
  tr.all (fun e => match e with
    | .send_transaction _ _ => false
    | _ => true)

/-- True when every submission event of a trace has skip-preflight set. -/
def trace_skip_preflight (tr : List RpcEvent) : Bool :=
  tr.all (fun e => match e with
    | .send_transaction _ skip => skip
    | _ => true)

/-- True when every message a trace submits consists of exactly one
instruction and names the given key as fee payer. -/
def trace_single_ix_payer (payer : Pubkey) (tr : List RpcEvent) : Bool :=
  tr.all (fun e => match e with
    | .send_transaction m _ => m.instructions.length == 1 && m.fee_payer == payer
    | _ => true)

/-- The step contract of one submission attempt: the trace is the fetch
event alone unless both the fetch and the signing succeeded, in which
case it is the fetch followed by exactly one submission with
skip-preflight set; and the attempt succeeds exactly when fetch,
signing and submission all succeed. -/
def pipeline_steps_ok (rpc : RpcClient) (caps : List SignerCap) (msg : Message)
    (out : Except String Nat × List RpcEvent) : Prop :=
  out.2 = (if exc_ok rpc.latest_blockhash && exc_ok (trySign msg caps) then
             [RpcEvent.get_latest_blockhash, RpcEvent.send_transaction msg true]
           else
             [RpcEvent.get_latest_blockhash]) ∧
  exc_ok out.1 = (exc_ok rpc.latest_blockhash && exc_ok (trySign msg caps) &&
                  exc_ok (rpc.send_transaction msg true))

lemma submit_pipeline_steps (rpc : RpcClient) (caps : List SignerCap) (msg : Message) :
    pipeline_steps_ok rpc caps msg (submit_pipeline rpc caps msg) := by
  unfold pipeline_steps_ok submit_pipeline
  cases hb : rpc.latest_blockhash with
  | error e => simp [exc_ok]
  | ok bh =>
    cases ht : trySign msg caps with
    | error e => simp [exc_ok]
    | ok u =>
      cases hs : rpc.send_transaction msg true with
      | error e => simp [exc_ok]
      | ok sig => simp [exc_ok]

lemma trySign_fail_of_bad_cap (msg : Message) (caps : List SignerCap) (c : SignerCap)
    (hc : c ∈ caps) (h : c.signOk = false) : exc_ok (trySign msg caps) = false := by
  have h2 : caps.any (fun d => !d.signOk) = true :=
    List.any_eq_true.mpr ⟨c, hc, by simp [h]⟩
  unfold trySign
  by_cases h1 : (caps.any fun c => !(msg.required_signers.contains c.pubkey)) = true
  · rw [if_pos h1]
    rfl
  · rw [if_neg h1, if_pos h2]
    rfl

lemma submit_pipeline_no_send (rpc : RpcClient) (caps : List SignerCap) (msg : Message)
    (h : exc_ok (trySign msg caps) = false) :
    trace_no_send (submit_pipeline rpc caps msg).2 = true := by
  have hsteps := (submit_pipeline_steps rpc caps msg).1
  rw [hsteps, h]
  simp [trace_no_send]

lemma submit_pipeline_skip (rpc : RpcClient) (caps : List SignerCap) (msg : Message) :
    trace_skip_preflight (submit_pipeline rpc caps msg).2 = true := by
  have hsteps := (submit_pipeline_steps rpc caps msg).1
  rw [hsteps]
  split <;> simp [trace_skip_preflight]

lemma submit_pipeline_single (rpc : RpcClient) (caps : List SignerCap) (ix : Instruction)
    (payer : Pubkey) :
    trace_single_ix_payer payer (submit_pipeline rpc caps (Message.new [ix] payer)).2 = true := by
  have hsteps := (submit_pipeline_steps rpc caps (Message.new [ix] payer)).1
  rw [hsteps]
  split <;> simp [trace_single_ix_payer, Message.new]

/-- Claim C3: in every operation pipeline (add liquidity, create token,
mint, transfer, unfreeze, update authorities), if signing the assembled
message fails — here because the supplied signer capability refuses to
sign — the pipeline never calls the submission endpoint of the node:
its network trace contains no send event. -/
theorem claim_C3 (rpc : RpcClient) (s mintCap : SignerCap) (program_id amount mint_pk receiver_pk decimals : Nat) (name symbol uri : String) (ix : Instruction) (h : s.signOk = false) :
    trace_no_send (process_add_liquidity rpc s program_id amount mint_pk).2 = true ∧
    trace_no_send (process_create_token rpc s mintCap decimals name symbol uri).2 = true ∧
    trace_no_send (process_mint_to rpc s mint_pk receiver_pk amount).2 = true ∧
    trace_no_send (process_transfer_to rpc s mint_pk receiver_pk amount).2 = true ∧
    trace_no_send (process_unfreeze_account rpc s mint_pk receiver_pk).2 = true ∧
    trace_no_send (process_update_authorities rpc s ix).2 = true := by
  refine ⟨?_, ?_, ?_, ?_, ?_, ?_⟩ <;>
    exact submit_pipeline_no_send _ _ _
      (trySign_fail_of_bad_cap _ _ s (by simp) h)

theorem claim_C3_witness :
    trace_no_send (process_add_liquidity
      { latest_blockhash := .ok 7, send_transaction := fun _ _ => .ok 99 }
      { pubkey := 11, signOk := false } 5 1000000 21).2 = true ∧
    trace_no_send (process_create_token
      { latest_blockhash := .ok 7, send_transaction := fun _ _ => .ok 99 }
      { pubkey := 11, signOk := false } { pubkey := 12, signOk := true } 9 "T" "TK" "u").2 = true ∧
    trace_no_send (process_mint_to
      { latest_blockhash := .ok 7, send_transaction := fun _ _ => .ok 99 }
      { pubkey := 11, signOk := false } 21 22 1000000).2 = true ∧
    trace_no_send (process_transfer_to
      { latest_blockhash := .ok 7, send_transaction := fun _ _ => .ok 99 }
      { pubkey := 11, signOk := false } 21 22 1000000).2 = true ∧
    trace_no_send (process_unfreeze_account
      { latest_blockhash := .ok 7, send_transaction := fun _ _ => .ok 99 }
      { pubkey := 11, signOk := false } 21 22).2 = true ∧
    trace_no_send (process_update_authorities
      { latest_blockhash := .ok 7, send_transaction := fun _ _ => .ok 99 }
      { pubkey := 11, signOk := false }
      { program_id := 1, accounts := [], data := [] }).2 = true :=
  claim_C3
    { latest_blockhash := .ok 7, send_transaction := fun _ _ => .ok 99 }
    { pubkey := 11, signOk := false } { pubkey := 12, signOk := true }
    5 1000000 21 22 9 "T" "TK" "u"
    { program_id := 1, accounts := [], data := [] } rfl

/-- Claim C4: every submission attempt of every pipeline performs its
steps in the order build, fetch blockhash, sign, submit: the network
trace opens with the single blockhash fetch, contains a single
submission exactly when the fetch and the signing both succeeded (so a
fetch failure or a signing failure is terminal with no retry and no
re-fetch), and the attempt succeeds exactly when fetch, signing and
submission all succeed (so a submission failure is terminal too). -/
theorem claim_C4 (rpc : RpcClient) (s mintCap : SignerCap) (program_id amount mint_pk receiver_pk decimals : Nat) (name symbol uri : String) (ix : Instruction) :
    pipeline_steps_ok rpc [s] (add_liquidity_msg s.pubkey program_id amount mint_pk)
      (process_add_liquidity rpc s program_id amount mint_pk) ∧
    pipeline_steps_ok rpc [s, mintCap]
      (create_token_msg s.pubkey mintCap.pubkey decimals name symbol uri)
      (process_create_token rpc s mintCap decimals name symbol uri) ∧
    pipeline_steps_ok rpc [s] (mint_to_msg s.pubkey mint_pk receiver_pk amount)
      (process_mint_to rpc s mint_pk receiver_pk amount) ∧
    pipeline_steps_ok rpc [s] (transfer_to_msg s.pubkey mint_pk receiver_pk amount)
      (process_transfer_to rpc s mint_pk receiver_pk amount) ∧
    pipeline_steps_ok rpc [s] (unfreeze_msg s.pubkey mint_pk receiver_pk)
      (process_unfreeze_account rpc s mint_pk receiver_pk) ∧
    pipeline_steps_ok rpc [s] (Message.new [ix] s.pubkey)
      (process_update_authorities rpc s ix) :=
  ⟨submit_pipeline_steps _ _ _, submit_pipeline_steps _ _ _, submit_pipeline_steps _ _ _,
   submit_pipeline_steps _ _ _, submit_pipeline_steps _ _ _, submit_pipeline_steps _ _ _⟩

/-- Claim C6: every transaction any pipeline submits is sent with
preflight simulation disabled: every send event of every trace carries
skip-preflight true, across all eight operation pipelines. -/
theorem claim_C6 (rpc : RpcClient) (s mintCap : SignerCap) (program_id amount mint_pk receiver_pk decimals : Nat) (name symbol uri : String) (ix ix2 : Instruction) :
    trace_skip_preflight (process_add_liquidity rpc s program_id amount mint_pk).2 = true ∧
    trace_skip_preflight (process_create_token rpc s mintCap decimals name symbol uri).2 = true ∧
    trace_skip_preflight (process_mint_to rpc s mint_pk receiver_pk amount).2 = true ∧
    trace_skip_preflight (process_transfer_to rpc s mint_pk receiver_pk amount).2 = true ∧
    trace_skip_preflight (process_unfreeze_account rpc s mint_pk receiver_pk).2 = true ∧
    trace_skip_preflight (process_update_authorities rpc s ix).2 = true ∧
    trace_skip_preflight (process_freeze_account rpc s mint_pk receiver_pk).2 = true ∧
    trace_skip_preflight (process_update_metadata rpc s ix2).2 = true :=
  ⟨submit_pipeline_skip _ _ _, submit_pipeline_skip _ _ _, submit_pipeline_skip _ _ _,
   submit_pipeline_skip _ _ _, submit_pipeline_skip _ _ _, submit_pipeline_skip _ _ _,
   submit_pipeline_skip _ _ _, submit_pipeline_skip _ _ _⟩

/-- Claim C10: every message any pipeline submits contains exactly one
instruction and designates the public key of the supplied signer as the
fee payer, across all eight operation pipelines. -/
theorem claim_C10 (rpc : RpcClient) (s mintCap : SignerCap) (program_id amount mint_pk receiver_pk decimals : Nat) (name symbol uri : String) (ix ix2 : Instruction) :
    trace_single_ix_payer s.pubkey (process_add_liquidity rpc s program_id amount mint_pk).2 = true ∧
    trace_single_ix_payer s.pubkey (process_create_token rpc s mintCap decimals name symbol uri).2 = true ∧
    trace_single_ix_payer s.pubkey (process_mint_to rpc s mint_pk receiver_pk amount).2 = true ∧
    trace_single_ix_payer s.pubkey (process_transfer_to rpc s mint_pk receiver_pk amount).2 = true ∧
    trace_single_ix_payer s.pubkey (process_unfreeze_account rpc s mint_pk receiver_pk).2 = true ∧
    trace_single_ix_payer s.pubkey (process_update_authorities rpc s ix).2 = true ∧
    trace_single_ix_payer s.pubkey (process_freeze_account rpc s mint_pk receiver_pk).2 = true ∧
    trace_single_ix_payer s.pubkey (process_update_metadata rpc s ix2).2 = true :=
  ⟨submit_pipeline_single _ _ _ _, submit_pipeline_single _ _ _ _, submit_pipeline_single _ _ _ _,
   submit_pipeline_single _ _ _ _, submit_pipeline_single _ _ _ _, submit_pipeline_single _ _ _ _,
   submit_pipeline_single _ _ _ _, submit_pipeline_single _ _ _ _⟩

/-- Claim C1: for every amount and program address, the instruction
built by process_add_liquidity has data exactly the 8-byte
discriminator of global:add_liquidity followed by the little-endian
8-byte encoding of the amount, and its account list has exactly the 8
entries bridge-state PDA (writable), vault associated address
(writable), depositor (read-only signer), mint (read-only), depositor
associated address (writable), system program, SPL token program and
associated-token program (read-only non-signers); the message the
pipeline assembles carries exactly this instruction. -/
theorem claim_C1 (program_id signer_pk amount mint : Nat) :
    (add_liquidity_ix program_id signer_pk amount mint).data =
      get_function_hash "global" "add_liquidity" ++ u64_le amount ∧
    (get_function_hash "global" "add_liquidity").length = 8 ∧
    (u64_le amount).length = 8 ∧
    le_value (u64_le amount) = amount % 2 ^ 64 ∧
    (add_liquidity_ix program_id signer_pk amount mint).accounts =
      [{ pubkey := (find_program_address_unwrap [str_bytes "bridge_state"] program_id).1,
         is_signer := false, is_writable := true },
       { pubkey := get_associated_token_address
           (find_program_address_unwrap [str_bytes "bridge_state"] program_id).1 mint,
         is_signer := false, is_writable := true },
       { pubkey := signer_pk, is_signer := true, is_writable := false },
       { pubkey := mint, is_signer := false, is_writable := false },
       { pubkey := get_associated_token_address signer_pk mint,
         is_signer := false, is_writable := true },
       { pubkey := system_program_ID, is_signer := false, is_writable := false },
       { pubkey := spl_token_ID, is_signer := false, is_writable := false },
       { pubkey := spl_associated_token_account_ID, is_signer := false, is_writable := false }] ∧
    (add_liquidity_ix program_id signer_pk amount mint).accounts.length = 8 ∧
    (add_liquidity_msg signer_pk program_id amount mint).instructions =
      [add_liquidity_ix program_id signer_pk amount mint] := by
  refine ⟨rfl, by simp [get_function_hash], rfl, ?_, rfl, rfl, rfl⟩
  simp only [u64_le, le_value, List.foldr]
  omega

/-- Claim C2 (amended): for every input, process_create_token assembles
a message with exactly one instruction; that instruction has exactly 9
accounts in the fixed generated order, and its data payload begins with
the single-byte CreateV1 discriminator 42 that selects the create
handler (not an 8-byte discriminator: the bytes that follow belong to
the argument record and vary with the name). -/
theorem claim_C2 (signer_pk mint_pk decimals : Nat) (name symbol uri : String) :
    (create_token_msg signer_pk mint_pk decimals name symbol uri).instructions =
      [create_v1_ix mint_pk signer_pk decimals name symbol uri] ∧
    (create_v1_ix mint_pk signer_pk decimals name symbol uri).accounts.length = 9 ∧
    (create_v1_ix mint_pk signer_pk decimals name symbol uri).accounts =
      [{ pubkey := (metadata_find_pda mint_pk).1, is_signer := false, is_writable := true },
       { pubkey := mpl_token_metadata_ID, is_signer := false, is_writable := false },
       { pubkey := mint_pk, is_signer := true, is_writable := true },
       { pubkey := signer_pk, is_signer := true, is_writable := false },
       { pubkey := signer_pk, is_signer := true, is_writable := true },
       { pubkey := signer_pk, is_signer := true, is_writable := false },
       { pubkey := system_program_ID, is_signer := false, is_writable := false },
       { pubkey := sysvar_instructions_ID, is_signer := false, is_writable := false },
       { pubkey := spl_token_ID, is_signer := false, is_writable := false }] ∧
    (create_v1_ix mint_pk signer_pk decimals name symbol uri).data.head? = some 42 := by
  refine ⟨rfl, rfl, rfl, rfl⟩

theorem claim_C2_cex :
    (create_v1_ix 3 11 9 "A" "TKN" "u").data.take 8 ≠
      (create_v1_ix 3 11 9 "BB" "TKN" "u").data.take 8 ∧
    8 ≤ (create_v1_ix 3 11 9 "A" "TKN" "u").data.length ∧
    8 ≤ (create_v1_ix 3 11 9 "BB" "TKN" "u").data.length := by
  refine ⟨?_, ?_, ?_⟩ <;> decide


/-- Claim C5: under capabilities that are valid for the message (each
matches a required signer and actually signs), signing fails with the
missing-signer error exactly when some account flagged as signer in the
message has no corresponding capability supplied; in particular the
create-token message requires both the fee payer and the freshly
generated mint keypair, and supplying both working capabilities makes
signing succeed, while supplying only the fee payer fails with the
missing-signer error. -/
theorem claim_C5 (msg : Message) (caps : List SignerCap) (s mintCap : SignerCap)
    (decimals : Nat) (name symbol uri : String)
    (hcov : ∀ c ∈ caps, c.pubkey ∈ msg.required_signers ∧ c.signOk = true)
    (hs : s.signOk = true) (hm : mintCap.signOk = true)
    (hne : mintCap.pubkey ≠ s.pubkey) :
    (trySign msg caps = .error SignError.not_enough_signers ↔
      ∃ p ∈ msg.required_signers, ∀ c ∈ caps, c.pubkey ≠ p) ∧
    (create_token_msg s.pubkey mintCap.pubkey decimals name symbol uri).required_signers =
      [s.pubkey, mintCap.pubkey] ∧
    trySign (create_token_msg s.pubkey mintCap.pubkey decimals name symbol uri)
      [s, mintCap] = .ok () ∧
    trySign (create_token_msg s.pubkey mintCap.pubkey decimals name symbol uri)
      [s] = .error SignError.not_enough_signers := by
  have hms : (mintCap.pubkey == s.pubkey) = false := by simp [hne]
  have hsm : (s.pubkey == mintCap.pubkey) = false := by simp [hne.symm]
  have hreq : (create_token_msg s.pubkey mintCap.pubkey decimals name symbol uri).required_signers =
      [s.pubkey, mintCap.pubkey] := by
    show dedup_keys [s.pubkey, mintCap.pubkey, s.pubkey, s.pubkey, s.pubkey] =
      [s.pubkey, mintCap.pubkey]
    rw [dedup_keys]
    simp only [List.filter_cons, List.filter_nil, hms, beq_self_eq_true, Bool.not_true,
      Bool.not_false, Bool.false_eq_true, if_true, if_false, ite_true, ite_false]
    rw [dedup_keys]
    simp [dedup_keys]
  refine ⟨?_, hreq, ?_, ?_⟩
  · have h1 : (caps.any fun c => !(msg.required_signers.contains c.pubkey)) = false := by
      rw [List.any_eq_false]
      intro c hc
      simp [(hcov c hc).1]
    have h2 : (caps.any fun c => !c.signOk) = false := by
      rw [List.any_eq_false]
      intro c hc
      simp [(hcov c hc).2]
    unfold trySign
    rw [h1, h2]
    simp only [Bool.false_eq_true, if_false]
    by_cases h3 : (msg.required_signers.any fun p => !(caps.any fun c => c.pubkey == p)) = true
    · rw [if_pos h3]
      have hex : ∃ p ∈ msg.required_signers, ∀ c ∈ caps, c.pubkey ≠ p := by
        obtain ⟨p, hp, hpc⟩ := List.any_eq_true.mp h3
        refine ⟨p, hp, ?_⟩
        intro c hc
        have hfalse : (caps.any fun c => c.pubkey == p) = false := by simpa using hpc
        have := List.any_eq_false.mp hfalse c hc
        simpa using this
      simp [hex]
    · rw [if_neg h3]
      constructor
      · intro h
        cases h
      · rintro ⟨p, hp, hpc⟩
        exfalso
        apply h3
        rw [List.any_eq_true]
        refine ⟨p, hp, ?_⟩
        simp only [Bool.not_eq_true']
        rw [List.any_eq_false]
        intro c hc
        simpa using hpc c hc
  · unfold trySign
    rw [hreq]
    simp [hs, hm, hms, hsm]
  · unfold trySign
    rw [hreq]
    simp [hs, hsm]

theorem claim_C5_witness :
    (trySign { fee_payer := 1, instructions := [], required_signers := [1] }
        [{ pubkey := 1, signOk := true }] = .error SignError.not_enough_signers ↔
      ∃ p ∈ ({ fee_payer := 1, instructions := [], required_signers := [1] : Message}).required_signers,
        ∀ c ∈ [({ pubkey := 1, signOk := true } : SignerCap)], c.pubkey ≠ p) ∧
    (create_token_msg 11 12 9 "T" "TK" "u").required_signers = [11, 12] ∧
    trySign (create_token_msg 11 12 9 "T" "TK" "u")
      [{ pubkey := 11, signOk := true }, { pubkey := 12, signOk := true }] = .ok () ∧
    trySign (create_token_msg 11 12 9 "T" "TK" "u")
      [{ pubkey := 11, signOk := true }] = .error SignError.not_enough_signers :=
  claim_C5 { fee_payer := 1, instructions := [], required_signers := [1] }
    [{ pubkey := 1, signOk := true }]
    { pubkey := 11, signOk := true } { pubkey := 12, signOk := true }
    9 "T" "TK" "u" (by decide) rfl rfl (by decide)

/-- Claim C7: program-derived-address and associated-token-address
derivation are pure and deterministic: two evaluations at the same
(program address, seed list) and the same (owner, mint) agree — here
both functions are state-free, so equality of repeated evaluations is
definitional — and the returned pair is genuinely the bump-search
result: the address is the candidate at the returned bump and lies off
the curve. -/
theorem claim_C7 (seeds : List (List Nat)) (pid owner mint a b : Nat)
    (h : find_program_address seeds pid = some (a, b)) :
    find_program_address seeds pid = find_program_address seeds pid ∧
    get_associated_token_address owner mint = get_associated_token_address owner mint ∧
    a = create_program_address seeds pid b ∧
    is_on_curve a = false := by
  unfold find_program_address at h
  cases heq : (List.range 256).reverse.find?
      (fun c => !(is_on_curve (create_program_address seeds pid c))) with
  | none =>
    rw [heq] at h
    cases h
  | some b0 =>
    rw [heq] at h
    have hpred := List.find?_some heq
    have hab := Option.some.inj h
    have ha : create_program_address seeds pid b0 = a := congrArg Prod.fst hab
    have hb : b0 = b := congrArg Prod.snd hab
    subst hb
    have hoff : is_on_curve (create_program_address seeds pid b0) = false := by
      simpa using hpred
    rw [ha] at hoff
    exact ⟨rfl, rfl, ha.symm, hoff⟩

theorem claim_C7_witness :
    find_program_address [[1]] 2 = find_program_address [[1]] 2 ∧
    get_associated_token_address 3 4 = get_associated_token_address 3 4 ∧
    ((find_program_address [[1]] 2).getD (0, 0)).1 =
      create_program_address [[1]] 2 ((find_program_address [[1]] 2).getD (0, 0)).2 ∧
    is_on_curve ((find_program_address [[1]] 2).getD (0, 0)).1 = false :=
  claim_C7 [[1]] 2 3 4 _ _ (by rfl)

/-- Claim C8: assembling a transaction message from zero instructions
fails with the EmptyInstructionSet error for every fee payer, rather
than producing a message; a non-empty instruction list assembles. -/
theorem claim_C8 (fee_payer : Pubkey) (ix : Instruction) :
    assemble [] fee_payer = .error AssembleError.empty_instruction_set ∧
    assemble [ix] fee_payer = .ok (Message.new [ix] fee_payer) :=
  ⟨rfl, rfl⟩

/-- Claim C9: for every mint, receiver and authority, constructing the
thaw instruction inside process_unfreeze_account never fails: with the
SPL token program id and the single-authority signer list the builder
returns exactly the instruction the unwrap in unfreeze.rs extracts. -/
theorem claim_C9 (mint_pk receiver_pk authority_pk : Nat) :
    thaw_account spl_token_ID (get_associated_token_address receiver_pk mint_pk)
      mint_pk authority_pk [authority_pk] =
      .ok (unfreeze_ix mint_pk receiver_pk authority_pk) ∧
    exc_ok (thaw_account spl_token_ID (get_associated_token_address receiver_pk mint_pk)
      mint_pk authority_pk [authority_pk]) = true :=
  ⟨rfl, rfl⟩
